import Mathlib

/-!
Shallow embedding of the `PublicServiceFeedbackFHE` Solidity contract
(`src/contracts/PublicServiceFeedbackFHE.sol`) and verification of its
specification's claims about the encrypted-aggregate lifecycle protocol
(submit, homomorphic aggregate update, manager-gated decryption request,
oracle reveal callback).

Modelling conventions:
* An `euint32` ciphertext handle is modelled as `Option Nat`: `none` is the
  uninitialized (zero) handle, `some v` carries the plaintext value, with
  every homomorphic operation reducing its result modulo `2 ^ 32`.
* Solidity mappings are total functions with the type's default value at
  absent keys (`none` fields for aggregates, `0` for request bindings, a
  zeroed record for decrypted snapshots).
* `msg.sender` is an explicit `caller : Nat` argument.
* `require` failures / reverts are `Except.error e`: an erroring call
  produces no successor state, which models Solidity's all-or-nothing
  transaction semantics (a failed call leaves storage untouched).
* The decryption oracle is external: the request id returned by
  `FHE.requestDecryption` is an input to `requestAggregateDecryption`, and
  `FHE.checkSignatures` is abstracted by a `proofValid : Bool` input to the
  callback. `uint32` division by zero reverts in Solidity, modelled by the
  `DivisionByZero` error branch.
-/

namespace ServiceLoopFHE

/-- The modulus of 32-bit unsigned arithmetic, `2 ^ 32`. -/
def M32 : Nat := 4294967296

/-- A ciphertext handle for a 32-bit encrypted integer. `none` models the
uninitialized (zero) handle a Solidity storage slot holds by default. -/
abbrev EU32 := Option Nat

namespace FHE

/-- `FHE.isInitialized`: whether a handle is a live ciphertext. -/
def isInitialized (a : EU32) : Bool := a.isSome

/-- `FHE.asEuint32`: trivial encryption of a plaintext constant. -/
def asEuint32 (n : Nat) : EU32 := some (n % M32)

/-- `FHE.add`: homomorphic addition modulo `2 ^ 32`. -/
def add : EU32 → EU32 → EU32
  | some a, some b => some ((a + b) % M32)
  | _, _ => none

/-- `FHE.mul`: homomorphic multiplication modulo `2 ^ 32`. -/
def mul : EU32 → EU32 → EU32
  | some a, some b => some ((a * b) % M32)
  | _, _ => none

/-- `FHE.sub`: homomorphic wrapping subtraction modulo `2 ^ 32`. -/
def sub : EU32 → EU32 → EU32
  | some a, some b => some ((a + (M32 - b % M32)) % M32)
  | _, _ => none

/-- `FHE.div`: homomorphic integer division (quotient `0` on a zero
divisor, the degenerate case no guarded code path reaches). -/
def div : EU32 → EU32 → EU32
  | some a, some b => some (a / b)
  | _, _ => none

end FHE

/-- Mirror of the `EncryptedFeedback` struct. -/
structure EncryptedFeedback where
  id : Nat
  citizen : Nat
  encryptedServiceType : EU32
  encryptedRating : EU32
  encryptedResponseTime : EU32
  encryptedComment : EU32
  timestamp : Nat
deriving Repr, DecidableEq

/-- Mirror of the `ServiceAggregate` struct. -/
structure ServiceAggregate where
  encryptedTotalRating : EU32
  encryptedResponseAvg : EU32
  encryptedFeedbackCount : EU32
  encryptedImprovementScore : EU32
deriving Repr, DecidableEq

/-- Mirror of the `DecryptedAggregate` struct. -/
structure DecryptedAggregate where
  avgRating : Nat
  avgResponseTime : Nat
  feedbackCount : Nat
  improvementScore : Nat
  isRevealed : Bool
deriving Repr, DecidableEq

/-- The contract's emitted events. -/
inductive LogEvent where
  | FeedbackSubmitted (id citizen : Nat)
  | AggregationUpdated (serviceType : Nat)
  | AggregateDecrypted (serviceType : Nat)
deriving Repr, DecidableEq

/-- The error taxonomy of the contract's `require` guards, using the
specification's names: `NotAdmin` is the revert string "Not admin",
`Unauthorized` is "Not authorized", `NoData` is "No data",
`AlreadyRevealed` is "Already decrypted", `InvalidRequest` is
"Invalid request", `ProofInvalid` is a `checkSignatures` failure, and
`DivisionByZero` is the EVM panic of `uint32` division by zero. -/
inductive ContractError where
  | NotAdmin
  | Unauthorized
  | NoData
  | AlreadyRevealed
  | InvalidRequest
  | ProofInvalid
  | DivisionByZero
deriving Repr, DecidableEq

/-- A Solidity storage slot of an absent `EncryptedFeedback`. -/
def defaultFeedback : EncryptedFeedback :=
  { id := 0, citizen := 0, encryptedServiceType := none,
    encryptedRating := none, encryptedResponseTime := none,
    encryptedComment := none, timestamp := 0 }

/-- A Solidity storage slot of an absent `ServiceAggregate`: all four
handles uninitialized. -/
def defaultAggregate : ServiceAggregate :=
  { encryptedTotalRating := none, encryptedResponseAvg := none,
    encryptedFeedbackCount := none, encryptedImprovementScore := none }

/-- A Solidity storage slot of an absent `DecryptedAggregate`. -/
def defaultDecrypted : DecryptedAggregate :=
  { avgRating := 0, avgResponseTime := 0, feedbackCount := 0,
    improvementScore := 0, isRevealed := false }

/-- Point update of a mapping modelled as a total function. -/
def setAt {α : Type} (m : Nat → α) (k : Nat) (v : α) : Nat → α :=
  fun j => if j = k then v else m j

/-- The contract's storage. -/
structure ContractState where
  feedbackCount : Nat
  feedbacks : Nat → EncryptedFeedback
  serviceAggregates : Nat → ServiceAggregate
  decryptedAggregates : Nat → DecryptedAggregate
  citizenFeedbacks : Nat → List Nat
  authorizedManagers : Nat → Bool
  requestToFeedbackId : Nat → Nat
  requestToServiceType : Nat → Nat
  govAdmin : Nat
  events : List LogEvent

/-- The state the constructor leaves: empty storage, the deployer as
`govAdmin`. -/
def initialState (deployer : Nat) : ContractState :=
  { feedbackCount := 0,
    feedbacks := fun _ => defaultFeedback,
    serviceAggregates := fun _ => defaultAggregate,
    decryptedAggregates := fun _ => defaultDecrypted,
    citizenFeedbacks := fun _ => [],
    authorizedManagers := fun _ => false,
    requestToFeedbackId := fun _ => 0,
    requestToServiceType := fun _ => 0,
    govAdmin := deployer,
    events := [] }

/-- `authorizeManager(manager)`, gated by the `onlyAdmin` modifier. -/
def authorizeManager (caller manager : Nat) (s : ContractState) :
    Except ContractError ContractState :=
  if caller = s.govAdmin then
    Except.ok { s with authorizedManagers := setAt s.authorizedManagers manager true }
  else
    Except.error ContractError.NotAdmin

/-- `submitEncryptedFeedback`: allocates the next id, stores the record,
appends it to the caller's index and emits `FeedbackSubmitted`. -/
def submitEncryptedFeedback (caller : Nat)
    (encryptedServiceType encryptedRating encryptedResponseTime encryptedComment : EU32)
    (timestamp : Nat) (s : ContractState) : ContractState :=
  let newId := s.feedbackCount + 1
  { s with
    feedbackCount := newId,
    feedbacks := setAt s.feedbacks newId
      { id := newId, citizen := caller,
        encryptedServiceType := encryptedServiceType,
        encryptedRating := encryptedRating,
        encryptedResponseTime := encryptedResponseTime,
        encryptedComment := encryptedComment,
        timestamp := timestamp },
    citizenFeedbacks := setAt s.citizenFeedbacks caller
      (s.citizenFeedbacks caller ++ [newId]),
    events := s.events ++ [LogEvent.FeedbackSubmitted newId caller] }

/-- `calculateImprovementScore`: blends a rating-derived term with an
inverse response-time term, halved twice. -/
def calculateImprovementScore (rating responseTime currentScore : EU32) : EU32 :=
  let ratingImpact := FHE.mul rating (FHE.asEuint32 20)
  let responseImpact := FHE.sub (FHE.asEuint32 100) (FHE.div responseTime (FHE.asEuint32 10))
  let newContribution := FHE.div (FHE.add ratingImpact responseImpact) (FHE.asEuint32 2)
  FHE.div (FHE.add currentScore newContribution) (FHE.asEuint32 2)

/-- The zero-initialization branch of `updateServiceAggregates` (source
lines 103-109): if the aggregate's count handle is uninitialized, all four
fields are set to encrypted zero. -/
def initAggregate (a : ServiceAggregate) : ServiceAggregate :=
  if FHE.isInitialized a.encryptedFeedbackCount then a
  else
    { encryptedTotalRating := FHE.asEuint32 0,
      encryptedResponseAvg := FHE.asEuint32 0,
      encryptedFeedbackCount := FHE.asEuint32 0,
      encryptedImprovementScore := FHE.asEuint32 0 }

/-- `updateServiceAggregates(feedbackId)`. The service type is the
hard-coded constant `1` (source line 99). The intermediate records mirror
the successive storage writes of the Solidity body; in particular the
storage slot `aggregate.encryptedFeedbackCount` is overwritten with
`newCount` (line 118) before it is read back in the response-average
numerator (line 122), so the numerator multiplies the old average by the
already-incremented count. -/
def updateServiceAggregates (feedbackId : Nat) (s : ContractState) : ContractState :=
  let feedback := s.feedbacks feedbackId
  let serviceType : Nat := 1
  let aggregate := initAggregate (s.serviceAggregates serviceType)
  let aggregate1 := { aggregate with
    encryptedTotalRating := FHE.add aggregate.encryptedTotalRating feedback.encryptedRating }
  let newCount := FHE.add aggregate1.encryptedFeedbackCount (FHE.asEuint32 1)
  let aggregate2 := { aggregate1 with encryptedFeedbackCount := newCount }
  let totalResponse := FHE.add
    (FHE.mul aggregate2.encryptedResponseAvg aggregate2.encryptedFeedbackCount)
    feedback.encryptedResponseTime
  let aggregate3 := { aggregate2 with encryptedResponseAvg := FHE.div totalResponse newCount }
  let aggregate4 := { aggregate3 with
    encryptedImprovementScore := calculateImprovementScore
      feedback.encryptedRating feedback.encryptedResponseTime
      aggregate3.encryptedImprovementScore }
  { s with
    serviceAggregates := setAt s.serviceAggregates serviceType aggregate4,
    events := s.events ++ [LogEvent.AggregationUpdated serviceType] }

/-- `requestAggregateDecryption(serviceType)`, gated by `onlyManager`.
`reqId` is the request id minted by the external decryption oracle
(`FHE.requestDecryption`); on success it is bound to the service type. -/
def requestAggregateDecryption (caller serviceType reqId : Nat)
    (s : ContractState) : Except ContractError ContractState :=
  if s.authorizedManagers caller then
    if FHE.isInitialized (s.serviceAggregates serviceType).encryptedFeedbackCount then
      if (s.decryptedAggregates serviceType).isRevealed then
        Except.error ContractError.AlreadyRevealed
      else
        Except.ok { s with requestToServiceType := setAt s.requestToServiceType reqId serviceType }
    else
      Except.error ContractError.NoData
  else
    Except.error ContractError.Unauthorized

/-- `decryptAggregateData(requestId, cleartexts, proof)`: the oracle reveal
callback. It carries no caller authorization; `caller` mirrors the unused
`msg.sender`. `cleartexts` is the abi-decoded quadruple
`(totalRating, avgResponse, count, improvementScore)` and `proofValid`
abstracts `FHE.checkSignatures`. An unbound request id maps to service
type `0` (the mapping default), rejected as `InvalidRequest`. -/
def decryptAggregateData (caller requestId : Nat)
    (cleartexts : Nat × Nat × Nat × Nat) (proofValid : Bool)
    (s : ContractState) : Except ContractError ContractState :=
  let serviceType := s.requestToServiceType requestId
  if serviceType = 0 then
    Except.error ContractError.InvalidRequest
  else if (s.decryptedAggregates serviceType).isRevealed then
    Except.error ContractError.AlreadyRevealed
  else if proofValid then
    let totalRating := cleartexts.1
    let avgResponse := cleartexts.2.1
    let count := cleartexts.2.2.1
    let improvementScore := cleartexts.2.2.2
    if count = 0 then
      Except.error ContractError.DivisionByZero
    else
      Except.ok { s with
        decryptedAggregates := setAt s.decryptedAggregates serviceType
          { avgRating := totalRating / count,
            avgResponseTime := avgResponse,
            feedbackCount := count,
            improvementScore := improvementScore,
            isRevealed := true },
        events := s.events ++ [LogEvent.AggregateDecrypted serviceType] }
  else
    Except.error ContractError.ProofInvalid

/-- The contract's state-mutating entry points (its `view` functions
cannot write storage and are omitted). -/
inductive Op where
  | authorize (caller manager : Nat)
  | submit (caller : Nat) (est er ert ec : EU32) (ts : Nat)
  | update (feedbackId : Nat)
  | request (caller serviceType reqId : Nat)
  | complete (caller reqId : Nat) (cleartexts : Nat × Nat × Nat × Nat) (proofValid : Bool)

/-- One external call against the contract. -/
def step (op : Op) (s : ContractState) : Except ContractError ContractState :=
  match op with
  | Op.authorize caller manager => authorizeManager caller manager s
  | Op.submit caller est er ert ec ts =>
      Except.ok (submitEncryptedFeedback caller est er ert ec ts s)
  | Op.update feedbackId => Except.ok (updateServiceAggregates feedbackId s)
  | Op.request caller serviceType reqId =>
      requestAggregateDecryption caller serviceType reqId s
  | Op.complete caller reqId cleartexts proofValid =>
      decryptAggregateData caller reqId cleartexts proofValid s

/-- Applying one call with revert semantics: a failed call leaves the
state unchanged. -/
def applyOp (s : ContractState) (op : Op) : ContractState :=
  match step op s with
  | Except.ok t => t
  | Except.error _ => s

/-- Running a sequence of external calls, each with revert semantics. -/
def runOps (s : ContractState) (ops : List Op) : ContractState :=
  List.foldl applyOp s ops

/-- Modelled from the spec: the running-mean update rule of section 4.2
step 4, `responseAvg' = (responseAvg * count + responseTime) / count'`
with `count' = count + 1`. -/
def specResponseAvgStep (responseAvg count responseTime : Nat) : Nat :=
  (responseAvg * count + responseTime) / (count + 1)

/-- Modelled from the spec: the true running mean of the response times
submitted so far (section 8). -/
def trueRunningMean (l : List Nat) : Nat := l.sum / l.length

/-! ### Concrete scenario states used by counterexamples and witnesses -/

/-- A fresh contract (deployed by address `0`) holding two feedback
records: record 1 with rating 5 and response time 10, record 2 with
rating 3 and response time 30. -/
def c1State : ContractState :=
  submitEncryptedFeedback 2 (some 1) (some 3) (some 30) (some 0) 0
    (submitEncryptedFeedback 1 (some 1) (some 5) (some 10) (some 0) 0 (initialState 0))

/-- A fresh contract holding two feedback records: record 1 with rating 4
and response time 40, record 2 with rating 2 and response time 20. -/
def c6State : ContractState :=
  submitEncryptedFeedback 2 (some 1) (some 2) (some 20) (some 0) 0
    (submitEncryptedFeedback 1 (some 1) (some 4) (some 40) (some 0) 0 (initialState 0))

/-- A fresh contract holding one feedback record with rating 5 and
response time 10. -/
def c7State : ContractState :=
  submitEncryptedFeedback 1 (some 1) (some 5) (some 10) (some 0) 0 (initialState 0)

/-- A fresh contract whose reveal snapshot for service type 1 is already
revealed, with decryption request id 7 bound to service type 1 and an
initialized aggregate at service type 1. -/
def revState : ContractState :=
  { initialState 0 with
    serviceAggregates := setAt (fun _ => defaultAggregate) 1
      { encryptedTotalRating := some 12, encryptedResponseAvg := some 20,
        encryptedFeedbackCount := some 3, encryptedImprovementScore := some 55 },
    decryptedAggregates := setAt (fun _ => defaultDecrypted) 1
      { avgRating := 4, avgResponseTime := 20, feedbackCount := 3,
        improvementScore := 55, isRevealed := true },
    requestToServiceType := setAt (fun _ => 0) 7 1,
    authorizedManagers := setAt (fun _ => false) 5 true }

/-- A fresh contract with request id 7 bound to service type 1, an
initialized aggregate at service type 1, manager 5 authorized, and no
snapshot revealed yet. -/
def pendingState : ContractState :=
  { initialState 0 with
    serviceAggregates := setAt (fun _ => defaultAggregate) 1
      { encryptedTotalRating := some 12, encryptedResponseAvg := some 20,
        encryptedFeedbackCount := some 3, encryptedImprovementScore := some 55 },
    requestToServiceType := setAt (fun _ => 0) 7 1,
    authorizedManagers := setAt (fun _ => false) 5 true }

/-- The state `pendingState` reaches after the reveal callback delivers
the plaintext quadruple `(12, 20, 3, 55)` with a valid proof for request
id 7. -/
def revealedPost : ContractState :=
  { pendingState with
    decryptedAggregates := setAt pendingState.decryptedAggregates 1
      { avgRating := 4, avgResponseTime := 20, feedbackCount := 3,
        improvementScore := 55, isRevealed := true },
    events := pendingState.events ++ [LogEvent.AggregateDecrypted 1] }

/-! ### Basic lemmas about the embedding -/

/-- Reading a mapping at the freshly written key. -/
@[simp] theorem setAt_same {α : Type} (m : Nat → α) (k : Nat) (v : α) :
    setAt m k v k = v := by
  simp [setAt]

/-- Reading a mapping away from the freshly written key. -/
theorem setAt_other {α : Type} (m : Nat → α) (k j : Nat) (v : α) (h : j ≠ k) :
    setAt m k v j = m j := by
  simp [setAt, h]

/-- An aggregate whose count handle is live is untouched by the
zero-initialization branch. -/
theorem initAggregate_of_initialized (a : ServiceAggregate) (x : Nat)
    (h : a.encryptedFeedbackCount = some x) : initAggregate a = a := by
  simp [initAggregate, FHE.isInitialized, h]

/-- After one `updateServiceAggregates`, the type-1 total-rating and count
handles hold the incremented values, given the live values of the
(possibly zero-initialized) aggregate and of the feedback's rating. -/
theorem update_total_count (s : ContractState) (fid t c r : Nat)
    (ht : (initAggregate (s.serviceAggregates 1)).encryptedTotalRating = some t)
    (hc : (initAggregate (s.serviceAggregates 1)).encryptedFeedbackCount = some c)
    (hr : (s.feedbacks fid).encryptedRating = some r) :
    ((updateServiceAggregates fid s).serviceAggregates 1).encryptedTotalRating
        = some ((t + r) % M32) ∧
    ((updateServiceAggregates fid s).serviceAggregates 1).encryptedFeedbackCount
        = some ((c + 1) % M32) := by
  simp [updateServiceAggregates, ht, hc, hr, FHE.add, FHE.asEuint32, M32]

/-- `updateServiceAggregates` leaves every storage component except the
type-1 aggregate slot and the event log untouched. -/
theorem update_frame (fid : Nat) (s : ContractState) :
    (updateServiceAggregates fid s).feedbacks = s.feedbacks ∧
    (updateServiceAggregates fid s).decryptedAggregates = s.decryptedAggregates ∧
    (updateServiceAggregates fid s).feedbackCount = s.feedbackCount ∧
    (updateServiceAggregates fid s).citizenFeedbacks = s.citizenFeedbacks ∧
    (updateServiceAggregates fid s).authorizedManagers = s.authorizedManagers ∧
    (updateServiceAggregates fid s).requestToServiceType = s.requestToServiceType ∧
    (updateServiceAggregates fid s).govAdmin = s.govAdmin :=
  ⟨rfl, rfl, rfl, rfl, rfl, rfl, rfl⟩

/-! ### Claims -/

/-- Claim C1 (code bug in the response-average formula): the spec's
incremental rule is `responseAvg' = (responseAvg * count + responseTime) /
(count + 1)`, which on the second update of the scenario (previous average
10, previous count 1, new response time 30) yields 20; the code instead
stores 25, because the storage slot holding the count is overwritten with
the incremented count before the numerator reads it back. -/
theorem C1_responseAvg_formula_bug :
    ((updateServiceAggregates 2 (updateServiceAggregates 1 c1State)).serviceAggregates 1).encryptedResponseAvg
        = some 25 ∧
    specResponseAvgStep 10 1 30 = 20 ∧ (25 : Nat) ≠ 20 := by
  refine ⟨rfl, rfl, by decide⟩

/-- Claim C6 (code bug in the running mean): after two updates on the
feedback records of `c6State` (response times 40, then 20) the count is 2
as claimed, but the stored response average is 50, not the true running
mean 30 of the submitted response times. -/
theorem C6_running_mean_bug :
    ((updateServiceAggregates 2 (updateServiceAggregates 1 c6State)).serviceAggregates 1).encryptedFeedbackCount
        = some 2 ∧
    ((updateServiceAggregates 2 (updateServiceAggregates 1 c6State)).serviceAggregates 1).encryptedResponseAvg
        = some 50 ∧
    trueRunningMean [40, 20] = 30 ∧ (50 : Nat) ≠ 30 := by
  refine ⟨rfl, rfl, rfl, by decide⟩

/-- Claim C8: `updateServiceAggregates` writes only the aggregate stored
under the hard-coded service-type key 1 and appends the event keyed 1,
regardless of the feedback's encrypted service-type field; every other
service type's aggregate, and every other storage component, is left
unchanged. -/
theorem C8_hardcoded_serviceType (feedbackId : Nat) (s : ContractState) :
    (∀ st, st ≠ 1 →
      (updateServiceAggregates feedbackId s).serviceAggregates st = s.serviceAggregates st) ∧
    (updateServiceAggregates feedbackId s).events
        = s.events ++ [LogEvent.AggregationUpdated 1] ∧
    (updateServiceAggregates feedbackId s).decryptedAggregates = s.decryptedAggregates ∧
    (updateServiceAggregates feedbackId s).feedbacks = s.feedbacks ∧
    (updateServiceAggregates feedbackId s).feedbackCount = s.feedbackCount ∧
    (updateServiceAggregates feedbackId s).citizenFeedbacks = s.citizenFeedbacks ∧
    (updateServiceAggregates feedbackId s).authorizedManagers = s.authorizedManagers ∧
    (updateServiceAggregates feedbackId s).requestToServiceType = s.requestToServiceType ∧
    (updateServiceAggregates feedbackId s).govAdmin = s.govAdmin := by
  refine ⟨?_, rfl, rfl, rfl, rfl, rfl, rfl, rfl, rfl⟩
  intro st hst
  simp [updateServiceAggregates, setAt, hst]

/-- Witness for C8 at a concrete input: updating feedback 0 on a fresh
contract leaves the aggregate of service type 2 unchanged. -/
theorem C8_hardcoded_serviceType_witness :
    (updateServiceAggregates 0 (initialState 0)).serviceAggregates 2
        = (initialState 0).serviceAggregates 2 :=
  (C8_hardcoded_serviceType 0 (initialState 0)).1 2 (by decide)

/-- Claim C9: a reveal callback whose request id is unbound (its binding
holds the mapping default 0) is rejected as `InvalidRequest`; the error
produces no successor state, so no `DecryptedAggregate` is written. -/
theorem C9_invalidRequest (caller reqId : Nat) (ct : Nat × Nat × Nat × Nat)
    (pv : Bool) (s : ContractState) (h : s.requestToServiceType reqId = 0) :
    decryptAggregateData caller reqId ct pv s
        = Except.error ContractError.InvalidRequest := by
  simp [decryptAggregateData, h]

/-- Witness for C9: on a fresh contract, request id 42 is unbound and the
callback is rejected. -/
theorem C9_invalidRequest_witness :
    decryptAggregateData 3 42 (1, 1, 1, 1) true (initialState 0)
        = Except.error ContractError.InvalidRequest :=
  C9_invalidRequest 3 42 (1, 1, 1, 1) true (initialState 0) rfl

/-- Claim C10: the reveal callback performs no caller authorization — for
any two callers with identical arguments and identical states, the outcome
and resulting state are identical. -/
theorem C10_caller_independence (a b reqId : Nat) (ct : Nat × Nat × Nat × Nat)
    (pv : Bool) (s : ContractState) :
    decryptAggregateData a reqId ct pv s = decryptAggregateData b reqId ct pv s := rfl

/-- Claim C3: `requestAggregateDecryption` succeeds exactly when the
caller is an authorized manager, the aggregate's count handle is live, and
the snapshot is not yet revealed; the failure in each other case carries
the guard-specific error (`require` order: authorization, existence,
reveal status), and success changes only the request-id binding. -/
theorem C3_requestReveal_contract (caller st reqId : Nat) (s : ContractState) :
    ((∃ t, requestAggregateDecryption caller st reqId s = Except.ok t) ↔
      (s.authorizedManagers caller = true ∧
       FHE.isInitialized (s.serviceAggregates st).encryptedFeedbackCount = true ∧
       (s.decryptedAggregates st).isRevealed = false)) ∧
    (s.authorizedManagers caller = false →
      requestAggregateDecryption caller st reqId s
          = Except.error ContractError.Unauthorized) ∧
    (s.authorizedManagers caller = true →
      FHE.isInitialized (s.serviceAggregates st).encryptedFeedbackCount = false →
      requestAggregateDecryption caller st reqId s
          = Except.error ContractError.NoData) ∧
    (s.authorizedManagers caller = true →
      FHE.isInitialized (s.serviceAggregates st).encryptedFeedbackCount = true →
      (s.decryptedAggregates st).isRevealed = true →
      requestAggregateDecryption caller st reqId s
          = Except.error ContractError.AlreadyRevealed) ∧
    (∀ t, requestAggregateDecryption caller st reqId s = Except.ok t →
      t = { s with requestToServiceType := setAt s.requestToServiceType reqId st }) := by
  cases hm : s.authorizedManagers caller
  · simp [requestAggregateDecryption, hm]
  · cases hi : FHE.isInitialized (s.serviceAggregates st).encryptedFeedbackCount
    · simp [requestAggregateDecryption, hm, hi]
    · cases hr : (s.decryptedAggregates st).isRevealed
      · simp [requestAggregateDecryption, hm, hi, hr]
      · simp [requestAggregateDecryption, hm, hi, hr]

/-- Witness for C3 at concrete inputs on `pendingState`'s unrevealed
sibling state: the unauthorized caller 9 is rejected with `Unauthorized`,
and the authorized manager 5 succeeds. -/
theorem C3_requestReveal_contract_witness :
    requestAggregateDecryption 9 1 8 pendingState
        = Except.error ContractError.Unauthorized ∧
    (∃ t, requestAggregateDecryption 5 1 8 pendingState = Except.ok t) := by
  constructor
  · exact (C3_requestReveal_contract 9 1 8 pendingState).2.1 rfl
  · exact (C3_requestReveal_contract 5 1 8 pendingState).1.mpr ⟨rfl, rfl, rfl⟩

/-- Claim C4: a reveal callback on a bound request id with an invalid
proof fails with `ProofInvalid` (producing no successor state, so the
snapshot stays unrevealed and the binding stays intact), and from that
same state a retry with a valid proof and genuine plaintexts (nonzero
count) succeeds, writing the snapshot. -/
theorem C4_proofInvalid_then_retry (caller caller2 reqId st : Nat)
    (ct : Nat × Nat × Nat × Nat) (s : ContractState)
    (hb : s.requestToServiceType reqId = st) (hst : st ≠ 0)
    (hrev : (s.decryptedAggregates st).isRevealed = false) :
    decryptAggregateData caller reqId ct false s
        = Except.error ContractError.ProofInvalid ∧
    (∀ total avg cnt sc : Nat, cnt ≠ 0 →
      decryptAggregateData caller2 reqId (total, avg, cnt, sc) true s =
        Except.ok { s with
          decryptedAggregates := setAt s.decryptedAggregates st
            { avgRating := total / cnt, avgResponseTime := avg,
              feedbackCount := cnt, improvementScore := sc, isRevealed := true },
          events := s.events ++ [LogEvent.AggregateDecrypted st] }) := by
  constructor
  · simp [decryptAggregateData, hb, hst, hrev]
  · intro total avg cnt sc hcnt
    simp [decryptAggregateData, hb, hst, hrev, hcnt]

/-- Witness for C4 on `pendingState`: the invalid-proof delivery for the
bound request id 7 is rejected with `ProofInvalid`. -/
theorem C4_proofInvalid_then_retry_witness :
    decryptAggregateData 0 7 (12, 20, 3, 55) false pendingState
        = Except.error ContractError.ProofInvalid :=
  (C4_proofInvalid_then_retry 0 0 7 1 (12, 20, 3, 55) pendingState rfl
    (by decide) rfl).1

/-- Claim C5: every successful reveal callback stores a snapshot whose
`avgRating` is the exact integer quotient of the revealed plaintext total
rating by the revealed plaintext count (independent of the homomorphic
running average), copies the other three plaintexts verbatim, and sets the
revealed flag; the count is necessarily nonzero (a zero count would have
reverted on the division). -/
theorem C5_reveal_division (caller reqId total avg cnt sc : Nat) (pv : Bool)
    (s t : ContractState)
    (h : decryptAggregateData caller reqId (total, avg, cnt, sc) pv s = Except.ok t) :
    t.decryptedAggregates (s.requestToServiceType reqId) =
      { avgRating := total / cnt, avgResponseTime := avg, feedbackCount := cnt,
        improvementScore := sc, isRevealed := true } ∧ cnt ≠ 0 := by
  simp only [decryptAggregateData] at h
  split at h
  · exact absurd h (by simp)
  · split at h
    · exact absurd h (by simp)
    · split at h
      · split at h
        · exact absurd h (by simp)
        · rename_i hzero
          cases h
          constructor
          · simp
          · exact hzero
      · exact absurd h (by simp)

/-- Witness for C5: on `pendingState`, delivering the revealed plaintexts
`(12, 20, 3, 55)` for the bound request id 7 stores the snapshot with
`avgRating = 12 / 3 = 4`. -/
theorem C5_reveal_division_witness :
    revealedPost.decryptedAggregates 1 =
      { avgRating := 4, avgResponseTime := 20, feedbackCount := 3,
        improvementScore := 55, isRevealed := true } ∧ (3 : Nat) ≠ 0 := by
  have h := C5_reveal_division 0 7 12 20 3 55 true pendingState revealedPost rfl
  simpa [pendingState, initialState, setAt] using h

/-- Claim C7: `updateServiceAggregates` is not idempotent — two calls with
the same feedback id add 2 to the count and twice the feedback's rating to
the total (modulo `2 ^ 32`), relative to the (zero-initialized if absent)
aggregate before the calls. -/
theorem C7_double_count (s : ContractState) (fid t c r : Nat)
    (ht : (initAggregate (s.serviceAggregates 1)).encryptedTotalRating = some t)
    (hc : (initAggregate (s.serviceAggregates 1)).encryptedFeedbackCount = some c)
    (hr : (s.feedbacks fid).encryptedRating = some r) :
    ((updateServiceAggregates fid (updateServiceAggregates fid s)).serviceAggregates 1).encryptedTotalRating
        = some ((t + 2 * r) % M32) ∧
    ((updateServiceAggregates fid (updateServiceAggregates fid s)).serviceAggregates 1).encryptedFeedbackCount
        = some ((c + 2) % M32) := by
  obtain ⟨h1t, h1c⟩ := update_total_count s fid t c r ht hc hr
  have hfeed : (updateServiceAggregates fid s).feedbacks = s.feedbacks := rfl
  have hinit : initAggregate ((updateServiceAggregates fid s).serviceAggregates 1)
      = (updateServiceAggregates fid s).serviceAggregates 1 :=
    initAggregate_of_initialized _ _ h1c
  obtain ⟨h2t, h2c⟩ := update_total_count (updateServiceAggregates fid s) fid
    ((t + r) % M32) ((c + 1) % M32) r
    (by rw [hinit]; exact h1t) (by rw [hinit]; exact h1c) (by rw [hfeed]; exact hr)
  constructor
  · rw [h2t, Nat.mod_add_mod]
    have he : t + r + r = t + 2 * r := by omega
    rw [he]
  · rw [h2c, Nat.mod_add_mod]

/-- Witness for C7: on `c7State` (one feedback with rating 5, empty
aggregate), two updates with feedback id 1 leave total rating 10 and
count 2. -/
theorem C7_double_count_witness :
    ((updateServiceAggregates 1 (updateServiceAggregates 1 c7State)).serviceAggregates 1).encryptedTotalRating
        = some 10 ∧
    ((updateServiceAggregates 1 (updateServiceAggregates 1 c7State)).serviceAggregates 1).encryptedFeedbackCount
        = some 2 := by
  have h := C7_double_count c7State 1 0 0 5 rfl rfl rfl
  simpa [M32] using h

/-- A successful external call against a state whose snapshot at `st` is
already revealed leaves that snapshot unchanged: no entry point writes a
snapshot whose revealed flag is set. -/
theorem step_ok_snapshot (s : ContractState) (st : Nat)
    (hrev : (s.decryptedAggregates st).isRevealed = true) :
    ∀ op s', step op s = Except.ok s' →
      s'.decryptedAggregates st = s.decryptedAggregates st := by
  intro op s' h
  cases op with
  | authorize c m =>
      simp only [step, authorizeManager] at h
      split at h
      · cases h; rfl
      · exact absurd h (by simp)
  | submit c est er ert ec ts =>
      simp only [step] at h
      cases h; rfl
  | update fid =>
      simp only [step] at h
      cases h; rfl
  | request c ty reqId =>
      simp only [step, requestAggregateDecryption] at h
      split at h
      · split at h
        · split at h
          · exact absurd h (by simp)
          · cases h; rfl
        · exact absurd h (by simp)
      · exact absurd h (by simp)
  | complete c reqId ct pv =>
      simp only [step, decryptAggregateData] at h
      split at h
      · exact absurd h (by simp)
      · split at h
        · exact absurd h (by simp)
        · split at h
          · split at h
            · exact absurd h (by simp)
            · rename_i hty hunrev _ _
              cases h
              have hne : st ≠ s.requestToServiceType reqId := by
                intro he
                rw [← he] at hunrev
                simp [hrev] at hunrev
              simp [setAt_other _ _ _ _ hne]
          · exact absurd h (by simp)

/-- Sequences of external calls (each with revert semantics) never touch a
snapshot that is already revealed. -/
theorem runOps_snapshot (s : ContractState) (st : Nat)
    (hrev : (s.decryptedAggregates st).isRevealed = true) (ops : List Op) :
    (runOps s ops).decryptedAggregates st = s.decryptedAggregates st := by
  induction ops generalizing s with
  | nil => rfl
  | cons op ops ih =>
      have h1 : (applyOp s op).decryptedAggregates st = s.decryptedAggregates st := by
        unfold applyOp
        cases hstep : step op s with
        | ok u => exact step_ok_snapshot s st hrev op u hstep
        | error e => rfl
      have h2 : ((applyOp s op).decryptedAggregates st).isRevealed = true := by
        rw [h1]; exact hrev
      have h3 : runOps s (op :: ops) = runOps (applyOp s op) ops := rfl
      rw [h3, ih (applyOp s op) h2, h1]

/-- Claim C2 (write-once): once the snapshot for a service type is
revealed, no single successful call and no sequence of calls mutates it
again; a reveal callback for any request id bound to that service type
fails with `AlreadyRevealed`, and so does any further reveal request for
that service type by an authorized manager on an existing aggregate. -/
theorem C2_write_once (s : ContractState) (st : Nat)
    (hrev : (s.decryptedAggregates st).isRevealed = true) :
    (∀ op s', step op s = Except.ok s' →
      s'.decryptedAggregates st = s.decryptedAggregates st) ∧
    (∀ ops, (runOps s ops).decryptedAggregates st = s.decryptedAggregates st) ∧
    (∀ caller reqId ct pv, s.requestToServiceType reqId = st → st ≠ 0 →
      decryptAggregateData caller reqId ct pv s
          = Except.error ContractError.AlreadyRevealed) ∧
    (∀ caller reqId, s.authorizedManagers caller = true →
      FHE.isInitialized (s.serviceAggregates st).encryptedFeedbackCount = true →
      requestAggregateDecryption caller st reqId s
          = Except.error ContractError.AlreadyRevealed) := by
  refine ⟨step_ok_snapshot s st hrev, runOps_snapshot s st hrev, ?_, ?_⟩
  · intro caller reqId ct pv hb hst
    simp [decryptAggregateData, hb, hst, hrev]
  · intro caller reqId hm hi
    simp [requestAggregateDecryption, hm, hi, hrev]

/-- Witness for C2 on `revState` (service type 1 already revealed):
duplicate delivery of the bound request id 7 fails with
`AlreadyRevealed`, and so does a further reveal request by manager 5. -/
theorem C2_write_once_witness :
    decryptAggregateData 0 7 (12, 20, 3, 55) true revState
        = Except.error ContractError.AlreadyRevealed ∧
    requestAggregateDecryption 5 1 8 revState
        = Except.error ContractError.AlreadyRevealed := by
  constructor
  · exact (C2_write_once revState 1 rfl).2.2.1 0 7 (12, 20, 3, 55) true rfl (by decide)
  · exact (C2_write_once revState 1 rfl).2.2.2 5 8 rfl rfl

end ServiceLoopFHE
